import Mathlib

/-!
Shallow embedding of `graphing.py` (danielsamuels/covid-19-graphs).

The program reads daily COVID-19 CSV reports, filters rows for one country,
reduces each file to a `(date, confirmed, deaths)` record, sorts by date,
computes day-over-day deltas, and renders bar charts.

Modelling conventions:
* Python strings are Lean `String`s; where character-level parsing happens
  (the filename date), we work on `List Char` (a string's character data).
* A CSV row (Python dict) is an association list `List (String × String)`;
  `dict` key lookup that can raise `KeyError` is `Except`-valued.
* Python exceptions become `Except`/`Option` results: `row_filter` returns
  `Except RowErr Bool` (its two raising paths are `KeyError` and the
  explicit schema `Exception`); `process_file` and the chart-data part of
  `write_graph` return `Option` (`none` = some exception propagated,
  including the `StopIteration` of the offset search).
* Counts are `Int` (deltas may be negative).
-/

namespace Graphing

/-- Calendar date as parsed by `datetime.strptime(..., '%m-%d-%Y')`. -/
structure Date where
  year : Nat
  month : Nat
  day : Nat
deriving Repr, DecidableEq

/-- Chronological comparison of dates (Python `datetime` ordering),
used as the sort key `itemgetter(0)` in `get_data`. -/
def dateLe (a b : Date) : Bool :=
  decide (a.year < b.year ∨ (a.year = b.year ∧
    (a.month < b.month ∨ (a.month = b.month ∧ a.day ≤ b.day))))

/-- One parsed CSV row: a mapping from column name to string value
(`csv.DictReader` row). -/
abbrev Row : Type := List (String × String)

/-- The accepted name lists for one country (`countries[...]` values). -/
structure CountryProfile where
  country : List String
  state : List String
deriving Repr, DecidableEq

/-- The module-level `countries` table of `graphing.py`. -/
def countries : List (String × CountryProfile) :=
  [("UK", ⟨["UK", "United Kingdom"], ["", "UK", "United Kingdom"]⟩),
   ("Italy", ⟨["Italy"], [""]⟩)]

/-- Errors raised inside `row_filter`: a dict `KeyError`, or the explicit
`Exception(f'Unable to process row, available keys: ...')`. -/
inductive RowErr where
  | keyError (key : String)
  | unrecognizedSchema (keys : List String)
deriving Repr, DecidableEq

/-- Python `row[k]`: the value at key `k`, raising `KeyError` when absent. -/
def getItem (row : Row) (k : String) : Except RowErr String :=
  match List.lookup k row with
  | some v => Except.ok v
  | none => Except.error (RowErr.keyError k)

/-- Membership test `k in row` on a dict. -/
def hasKey (row : Row) (k : String) : Bool :=
  (List.lookup k row).isSome

/-- Translation of `Generator.row_filter` (graphing.py lines 38-46).
`country = countries[self.active_country]`; then the two schema branches.
Each branch translates
`row[ck] in country['country'] and row[sk] in country['state']` with
Python's short-circuit `and`: the state field is looked up (and can raise
`KeyError`) only when the country membership test succeeded. A row with
neither country key hits the explicit `Exception` carrying `row.keys()`. -/
def row_filter (active : String) (row : Row) : Except RowErr Bool :=
  match List.lookup active countries with
  | none => Except.error (RowErr.keyError active)
  | some country =>
    if hasKey row "Country_Region" then
      do
        let cr ← getItem row "Country_Region"
        if country.country.contains cr then
          do
            let ps ← getItem row "Province_State"
            return country.state.contains ps
        else
          return false
    else if hasKey row "Country/Region" then
      do
        let cr ← getItem row "Country/Region"
        if country.country.contains cr then
          do
            let ps ← getItem row "Province/State"
            return country.state.contains ps
        else
          return false
    else
      Except.error (RowErr.unrecognizedSchema (row.map Prod.fst))

/-- Python `str.rstrip(chars)` on character lists: remove the maximal
trailing run of characters belonging to `cs`. -/
def pyRstrip (cs : List Char) : List Char → List Char
  | [] => []
  | c :: rest =>
    let r := pyRstrip cs rest
    if r.isEmpty && cs.contains c then [] else c :: r

/-- The character set of `.rstrip('.csv')` in `process_file`. -/
def rstripSet : List Char := ['.', 'c', 's', 'v']

/-- Split a character list on a separator character (used to decompose the
`%m-%d-%Y` filename stem at its two dashes). -/
def splitOnAux (sep : Char) : List Char → List Char → List (List Char)
  | [], acc => [acc.reverse]
  | c :: rest, acc =>
    if c = sep then acc.reverse :: splitOnAux sep rest []
    else splitOnAux sep rest (c :: acc)

/-- Split entry point: `splitOnChar sep s` splits `s` at every `sep`. -/
def splitOnChar (sep : Char) (s : List Char) : List (List Char) :=
  splitOnAux sep s []

/-- Value of a nonempty all-digit character list, `none` otherwise. -/
def digitsToNat? (s : List Char) : Option Nat :=
  if !s.isEmpty && s.all (fun c => c.isDigit) then
    some (s.foldl (fun n c => n * 10 + (c.toNat - 48)) 0)
  else none

/-- Gregorian leap-year rule (as validated by `datetime`). -/
def isLeapYear (y : Nat) : Bool :=
  (y % 4 == 0 && y % 100 != 0) || y % 400 == 0

/-- Number of days in a month, for `datetime`'s day-of-month validation. -/
def daysInMonth (y m : Nat) : Nat :=
  if m = 2 then (if isLeapYear y then 29 else 28)
  else if m = 4 ∨ m = 6 ∨ m = 9 ∨ m = 11 then 30
  else 31

/-- Translation of `datetime.strptime(stem, '%m-%d-%Y')`: `%m` and `%d`
match one or two digits (month 1-12, day valid for the month), `%Y`
matches exactly four digits, and `datetime` requires `year ≥ MINYEAR = 1`;
`none` models the raised `ValueError`. -/
def strptime_mdY (s : List Char) : Option Date :=
  match splitOnChar '-' s with
  | [ms, ds, ys] =>
    match digitsToNat? ms, digitsToNat? ds, digitsToNat? ys with
    | some m, some d, some y =>
      if ms.length ≤ 2 ∧ ds.length ≤ 2 ∧ ys.length = 4 ∧ 1 ≤ y ∧
          1 ≤ m ∧ m ≤ 12 ∧ 1 ≤ d ∧ d ≤ daysInMonth y m then
        some ⟨y, m, d⟩
      else none
    | _, _, _ => none
  | _ => none

/-- Python `int(s)` on a decimal string with optional sign; `none` models
the raised `ValueError`. Python additionally tolerates surrounding
whitespace and underscores between digits; omitting them only narrows the
success domain of the model. -/
def pyInt? (s : String) : Option Int :=
  match s.data with
  | '-' :: rest => (digitsToNat? rest).map (fun n => -(n : Int))
  | '+' :: rest => (digitsToNat? rest).map (fun n => (n : Int))
  | l => (digitsToNat? l).map (fun n => (n : Int))

/-- Translation of `int(data[field] or 0)`: `none` for a missing key
(`KeyError`) or an unparsable value (`ValueError`); the empty string is
falsy, so `'' or 0` parses as `0`. -/
def intFieldOrZero (v : Option String) : Option Int :=
  match v with
  | none => none
  | some s => if s = "" then some 0 else pyInt? s

/-- Scan for the first row accepted by `row_filter`, translating
`next(row for row in reader if self.row_filter(row))`: rows after the first
accepted one are never examined; a filter error propagates. -/
def findFirstMatch (active : String) : List Row → Except RowErr (Option Row)
  | [] => Except.ok none
  | r :: rest =>
    match row_filter active r with
    | Except.error e => Except.error e
    | Except.ok true => Except.ok (some r)
    | Except.ok false => findFirstMatch active rest

/-- Translation of `Generator.process_file` (graphing.py lines 48-61).
The date comes from the filename alone; the counts from the first matching
row, or zero when no row matches (the `StopIteration` branch, which only
logs). `none` models any raised exception (bad filename date, a
`row_filter` error, or a bad `Confirmed`/`Deaths` field). -/
def process_file (active : String) (filename : String) (rows : List Row) :
    Option (Date × Int × Int) :=
  match strptime_mdY (pyRstrip rstripSet filename.data) with
  | none => none
  | some date =>
    match findFirstMatch active rows with
    | Except.error _ => none
    | Except.ok none => some (date, 0, 0)
    | Except.ok (some data) =>
      match intFieldOrZero (List.lookup "Confirmed" data),
            intFieldOrZero (List.lookup "Deaths" data) with
      | some confirmed, some deaths => some (date, confirmed, deaths)
      | _, _ => none

/-- Translation of `Generator.get_data` (graphing.py lines 63-70): reduce
every `(filename, rows)` file via `process_file`, then
`time_series.sort(key=itemgetter(0))` — a stable sort by date, modelled
with `List.mergeSort` on the date key. -/
def get_data (active : String) (files : List (String × List Row)) :
    Option (List (Date × Int × Int)) :=
  (files.mapM (fun fr => process_file active fr.1 fr.2)).map
    (fun time_series => time_series.mergeSort (fun a b => dateLe a.1 b.1))

/-- Loop body of `generate_rate_delta_graph` (graphing.py lines 75-91).
`p` holds `(p_date, p_confirmed, p_deaths)`; the Python guard
`if not p_date` is true exactly when `p_date` is still `None`, since a
`datetime` value is always truthy. -/
def deltasLoop (p : Option (Date × Int × Int)) :
    List (Date × Int × Int) → List (Date × Int × Int)
  | [] => []
  | d :: rest =>
    match p with
    | none => deltasLoop (some d) rest
    | some q => (d.1, d.2.1 - q.2.1, d.2.2 - q.2.2) :: deltasLoop (some d) rest

/-- The delta series computed by `generate_rate_delta_graph` before it is
passed to `write_graph` (the loop's `enumerate` index is unused). -/
def rate_deltas (data : List (Date × Int × Int)) : List (Date × Int × Int) :=
  deltasLoop none data

/-- Month abbreviations of `strftime('%b')` (C locale). -/
def monthAbbr : Nat → String
  | 1 => "Jan" | 2 => "Feb" | 3 => "Mar" | 4 => "Apr"
  | 5 => "May" | 6 => "Jun" | 7 => "Jul" | 8 => "Aug"
  | 9 => "Sep" | 10 => "Oct" | 11 => "Nov" | 12 => "Dec"
  | _ => ""

/-- Zero-padded two-digit rendering, as in `strftime('%d')`. -/
def pad2 (n : Nat) : String :=
  if n < 10 then "0" ++ toString n else toString n

/-- Translation of `t[0].strftime('%d %b')`, the x-axis label format. -/
def strftime_dmb (d : Date) : String :=
  pad2 d.day ++ " " ++ monthAbbr d.month

/-- The x-axis labels `x` of `write_graph`. -/
def labelsOf (ts : List (Date × Int × Int)) : List String :=
  ts.map (fun t => strftime_dmb t.1)

/-- The `confirmed` list of `write_graph`. -/
def confirmedOf (ts : List (Date × Int × Int)) : List Int :=
  ts.map (fun t => t.2.1)

/-- The `deaths` list of `write_graph`. -/
def deathsOf (ts : List (Date × Int × Int)) : List Int :=
  ts.map (fun t => t.2.2)

/-- Python list slicing `l[n:]` for an integer `n`: drop the first `n`
elements when `n ≥ 0`, keep the last `|n|` (at most all) when `n < 0`. -/
def pySliceFrom (n : Int) (l : List α) : List α :=
  if 0 ≤ n then l.drop n.toNat
  else l.drop (l.length - min n.natAbs l.length)

/-- The starting-offset search of `write_graph` (graphing.py lines
116-121): first index of `zip(confirmed, deaths)` whose pair has positive
sum (`any_case`) or is positive in both components; `none` models the
unhandled `StopIteration` of `next(...)`. -/
def offsetIdx (any_case : Bool) (confirmed deaths : List Int) : Option Nat :=
  if any_case then
    (confirmed.zip deaths).findIdx? (fun cd => decide (0 < cd.1 + cd.2))
  else
    (confirmed.zip deaths).findIdx? (fun cd => decide (0 < cd.1) && decide (0 < cd.2))

/-- The run configuration built by `argparse` (fields used by the
embedding; `graphs`/`verbose` do not affect any modelled value). -/
structure Config where
  shift : Int
  log : Bool
  country : String
  any_case : Bool
deriving Repr, DecidableEq

/-- Data part of `Generator.write_graph` (graphing.py lines 102-129): the
x labels, the confirmed series, and the deaths series exactly as they are
handed to the two `go.Bar` traces — after the offset truncation of all
three lists and the `deaths[time_shift:]` slice on deaths only. `none`
models the `StopIteration` escaping from the offset search. -/
def write_graph_data (cfg : Config) (time_series : List (Date × Int × Int)) :
    Option (List String × List Int × List Int) :=
  let time_shift := if cfg.shift = 0 then 0 else cfg.shift
  let x := labelsOf time_series
  let confirmed := confirmedOf time_series
  let deaths := deathsOf time_series
  match offsetIdx cfg.any_case confirmed deaths with
  | none => none
  | some offset =>
    some (x.drop offset, confirmed.drop offset,
      pySliceFrom time_shift (deaths.drop offset))

/-- Translation of `Generator.generate_filename` (graphing.py lines
93-94): the f-string
`{country}-{graph_type}-{'shifted-N-days' if shift else 'unshifted'}{' (log)' if log else ''}.png`. -/
def generate_filename (cfg : Config) (graph_type : String) : String :=
  cfg.country ++ "-" ++ graph_type ++ "-" ++
    (if cfg.shift ≠ 0 then "shifted-" ++ toString cfg.shift ++ "-days"
     else "unshifted") ++
    (if cfg.log then " (log)" else "") ++ ".png"

/-- Modelled from the spec: the output filename format
`<country>-<chart-kind>-(shifted-<N>-days|unshifted)[ (log)].png` of
section 6, with the shifted form exactly when the shift is non-zero and
the log suffix exactly when the log flag is set. Stated from the spec's
words, for comparison with `generate_filename`. -/
def filenameSpecFormat (country kind : String) (shift : Int) (log : Bool) :
    String :=
  country ++ "-" ++ kind ++ "-" ++
    (if shift ≠ 0 then "shifted-" ++ toString shift ++ "-days"
     else "unshifted") ++
    (if log then " (log)" else "") ++ ".png"

/-- The ten decimal digit characters, for quantifying over `MM-DD-YYYY`
filenames character by character. -/
def digitChars : List Char := ['0', '1', '2', '3', '4', '5', '6', '7', '8', '9']

/-- Numeric value of a digit character. -/
def digitVal (c : Char) : Nat := c.toNat - 48

/-- Numeric value of a two-digit field. -/
def twoDigits (a b : Char) : Nat := 10 * digitVal a + digitVal b

/-- Numeric value of a four-digit field. -/
def fourDigits (a b c d : Char) : Nat :=
  1000 * digitVal a + 100 * digitVal b + 10 * digitVal c + digitVal d

deriving instance DecidableEq for Except

/-! Helper lemmas shared by the claim theorems. -/

lemma deltasLoop_length (l : List (Date × Int × Int)) :
    ∀ p, (deltasLoop (some p) l).length = l.length := by
  induction l with
  | nil => intro p; rfl
  | cons d rest ih => intro p; simp [deltasLoop, ih]

lemma deltasLoop_getElem?_some (l : List (Date × Int × Int)) :
    ∀ (p : Date × Int × Int) (i : Nat) (a b : Date × Int × Int),
      (p :: l)[i]? = some a → l[i]? = some b →
      (deltasLoop (some p) l)[i]? = some (b.1, b.2.1 - a.2.1, b.2.2 - a.2.2) := by
  induction l with
  | nil =>
    intro p i a b _ hb
    simp at hb
  | cons d rest ih =>
    intro p i a b ha hb
    cases i with
    | zero =>
      simp only [List.getElem?_cons_zero, Option.some.injEq] at ha hb
      subst ha
      subst hb
      simp [deltasLoop]
    | succ n =>
      simp only [List.getElem?_cons_succ] at ha hb
      simpa [deltasLoop] using ih d n a b ha hb

lemma findIdx?_zip_spec (p : Int × Int → Bool) (confirmed deaths : List Int)
    (i : Nat) (h : (confirmed.zip deaths).findIdx? p = some i) :
    (∀ c d, confirmed[i]? = some c → deaths[i]? = some d → p (c, d) = true) ∧
    (∀ j, j < i → ∀ c d, confirmed[j]? = some c → deaths[j]? = some d →
      p (c, d) = false) := by
  rw [List.findIdx?_eq_some_iff_getElem] at h
  obtain ⟨hlen, hp, hmin⟩ := h
  constructor
  · intro c d hc hd
    have hz : (confirmed.zip deaths)[i]? = some (c, d) :=
      List.getElem?_zip_eq_some.mpr ⟨hc, hd⟩
    rw [List.getElem?_eq_getElem hlen] at hz
    rw [← Option.some.inj hz]
    exact hp
  · intro j hj c d hc hd
    have hjlen : j < (confirmed.zip deaths).length := Nat.lt_trans hj hlen
    have hz : (confirmed.zip deaths)[j]? = some (c, d) :=
      List.getElem?_zip_eq_some.mpr ⟨hc, hd⟩
    rw [List.getElem?_eq_getElem hjlen] at hz
    have hnp := hmin j hj
    rw [Option.some.inj hz] at hnp
    simpa using hnp

lemma dateLe_trans (a b c : Date)
    (hab : dateLe a b = true) (hbc : dateLe b c = true) : dateLe a c = true := by
  simp only [dateLe, decide_eq_true_eq] at *
  omega

lemma dateLe_total (a b : Date) : (dateLe a b || dateLe b a) = true := by
  simp only [dateLe, Bool.or_eq_true, decide_eq_true_eq]
  omega

lemma findFirstMatch_all_false (active : String) :
    ∀ rows : List Row, (∀ q ∈ rows, row_filter active q = Except.ok false) →
      findFirstMatch active rows = Except.ok none := by
  intro rows h
  induction rows with
  | nil => rfl
  | cons r rest ih =>
    have hr := h r (by simp)
    have htail := ih (fun q hq => h q (by simp [hq]))
    simp [findFirstMatch, hr, htail]

lemma findFirstMatch_first (active : String) (r : Row) (rows2 : List Row)
    (hr : row_filter active r = Except.ok true) :
    ∀ rows1 : List Row, (∀ q ∈ rows1, row_filter active q = Except.ok false) →
      findFirstMatch active (rows1 ++ r :: rows2) = Except.ok (some r) := by
  intro rows1 h1
  induction rows1 with
  | nil => simp [findFirstMatch, hr]
  | cons q rest ih =>
    have hq := h1 q (by simp)
    have htail := ih (fun x hx => h1 x (by simp [hx]))
    simp [findFirstMatch, hq, htail]

lemma except_ok_bind {ε α β : Type} (a : α) (f : α → Except ε β) :
    (Except.ok a >>= f : Except ε β) = f a := rfl

lemma digit_not_strip : ∀ c ∈ digitChars, rstripSet.contains c = false := by decide

lemma digit_ne_dash : ∀ c ∈ digitChars, ¬ (c = '-') := by decide

lemma digit_isDigit : ∀ c ∈ digitChars, c.isDigit = true := by decide

lemma pyRstrip_cons (cs : List Char) (c : Char) (rest : List Char) :
    pyRstrip cs (c :: rest) =
      if (pyRstrip cs rest).isEmpty && cs.contains c then []
      else c :: pyRstrip cs rest := rfl

lemma pyRstrip_append_of_ne (cs : List Char) (rest res : List Char)
    (h : pyRstrip cs rest = res) (hne : res.isEmpty = false) :
    ∀ l, pyRstrip cs (l ++ rest) = l ++ res := by
  intro l
  induction l with
  | nil => simpa using h
  | cons c cl ih =>
    rw [List.cons_append, pyRstrip_cons, ih]
    have hem : (cl ++ res).isEmpty = false := by
      cases cl with
      | nil =>
        simpa using hne
      | cons x xs => rfl
    rw [hem]
    simp

lemma pyRstrip_mdY (m1 m2 d1 d2 y1 y2 y3 y4 : Char) (h8 : y4 ∈ digitChars) :
    pyRstrip rstripSet
        [m1, m2, '-', d1, d2, '-', y1, y2, y3, y4, '.', 'c', 's', 'v'] =
      [m1, m2, '-', d1, d2, '-', y1, y2, y3, y4] := by
  have t0 : pyRstrip rstripSet ['.', 'c', 's', 'v'] = [] := rfl
  have t1 : pyRstrip rstripSet [y4, '.', 'c', 's', 'v'] = [y4] := by
    rw [show ([y4, '.', 'c', 's', 'v'] : List Char) =
      y4 :: ['.', 'c', 's', 'v'] from rfl, pyRstrip_cons, t0,
      digit_not_strip y4 h8]
    simp
  have := pyRstrip_append_of_ne rstripSet [y4, '.', 'c', 's', 'v'] [y4] t1 rfl
    [m1, m2, '-', d1, d2, '-', y1, y2, y3]
  simpa using this

lemma splitOn_mdY (m1 m2 d1 d2 y1 y2 y3 y4 : Char)
    (h1 : m1 ∈ digitChars) (h2 : m2 ∈ digitChars) (h3 : d1 ∈ digitChars)
    (h4 : d2 ∈ digitChars) (h5 : y1 ∈ digitChars) (h6 : y2 ∈ digitChars)
    (h7 : y3 ∈ digitChars) (h8 : y4 ∈ digitChars) :
    splitOnChar '-' [m1, m2, '-', d1, d2, '-', y1, y2, y3, y4] =
      [[m1, m2], [d1, d2], [y1, y2, y3, y4]] := by
  simp [splitOnChar, splitOnAux, digit_ne_dash m1 h1, digit_ne_dash m2 h2,
    digit_ne_dash d1 h3, digit_ne_dash d2 h4, digit_ne_dash y1 h5,
    digit_ne_dash y2 h6, digit_ne_dash y3 h7, digit_ne_dash y4 h8]

lemma digitsToNat?_two (a b : Char) (ha : a ∈ digitChars) (hb : b ∈ digitChars) :
    digitsToNat? [a, b] = some (twoDigits a b) := by
  simp [digitsToNat?, digit_isDigit a ha, digit_isDigit b hb, twoDigits, digitVal]
  omega

lemma digitsToNat?_four (a b c d : Char) (ha : a ∈ digitChars)
    (hb : b ∈ digitChars) (hc : c ∈ digitChars) (hd : d ∈ digitChars) :
    digitsToNat? [a, b, c, d] = some (fourDigits a b c d) := by
  simp [digitsToNat?, digit_isDigit a ha, digit_isDigit b hb, digit_isDigit c hc,
    digit_isDigit d hd, fourDigits, digitVal]
  omega

lemma strptime_mdY_digits (m1 m2 d1 d2 y1 y2 y3 y4 : Char)
    (h1 : m1 ∈ digitChars) (h2 : m2 ∈ digitChars) (h3 : d1 ∈ digitChars)
    (h4 : d2 ∈ digitChars) (h5 : y1 ∈ digitChars) (h6 : y2 ∈ digitChars)
    (h7 : y3 ∈ digitChars) (h8 : y4 ∈ digitChars)
    (hy : 1 ≤ fourDigits y1 y2 y3 y4)
    (hm1 : 1 ≤ twoDigits m1 m2) (hm2 : twoDigits m1 m2 ≤ 12)
    (hd1 : 1 ≤ twoDigits d1 d2)
    (hd2 : twoDigits d1 d2 ≤ daysInMonth (fourDigits y1 y2 y3 y4) (twoDigits m1 m2)) :
    strptime_mdY [m1, m2, '-', d1, d2, '-', y1, y2, y3, y4] =
      some ⟨fourDigits y1 y2 y3 y4, twoDigits m1 m2, twoDigits d1 d2⟩ := by
  unfold strptime_mdY
  rw [splitOn_mdY m1 m2 d1 d2 y1 y2 y3 y4 h1 h2 h3 h4 h5 h6 h7 h8]
  simp only [digitsToNat?_two m1 m2 h1 h2, digitsToNat?_two d1 d2 h3 h4,
    digitsToNat?_four y1 y2 y3 y4 h5 h6 h7 h8]
  rw [if_pos]
  exact ⟨by simp, by simp, by simp, hy, hm1, hm2, hd1, hd2⟩

/-! Claim theorems. -/

/-- C1: for every sorted TimeSeries of length `n ≥ 1`, the delta builder of
`generate_rate_delta_graph` returns a sequence of length exactly `n - 1`
whose `i`-th entry is
`(date[i+1], confirmed[i+1] - confirmed[i], deaths[i+1] - deaths[i])`; the
first input record is excluded and differences are plain (possibly
negative) subtractions. -/
theorem delta_series_builder_correct (l : List (Date × Int × Int))
    (h : 1 ≤ l.length) :
    (rate_deltas l).length = l.length - 1 ∧
    ∀ (i : Nat) (a b : Date × Int × Int), l[i]? = some a → l[i+1]? = some b →
      (rate_deltas l)[i]? = some (b.1, b.2.1 - a.2.1, b.2.2 - a.2.2) := by
  match l with
  | [] => simp at h
  | hd :: tl =>
    have hr : rate_deltas (hd :: tl) = deltasLoop (some hd) tl := by
      simp [rate_deltas, deltasLoop]
    refine ⟨?_, ?_⟩
    · rw [hr, deltasLoop_length tl hd]
      simp
    · intro i a b ha hb
      rw [List.getElem?_cons_succ] at hb
      rw [hr]
      exact deltasLoop_getElem?_some tl hd i a b ha hb

/-- C1 witness: the delta builder applied to the spec's two-day example
series has length `2 - 1` and its sole entry differences the two days. -/
theorem delta_series_builder_witness :
    (rate_deltas [(⟨2020, 1, 1⟩, 0, 0), (⟨2020, 1, 2⟩, 5, 1)]).length =
      [((⟨2020, 1, 1⟩ : Date), (0 : Int), (0 : Int)),
       (⟨2020, 1, 2⟩, 5, 1)].length - 1 :=
  (delta_series_builder_correct
    [(⟨2020, 1, 1⟩, 0, 0), (⟨2020, 1, 2⟩, 5, 1)] (by decide)).1

/-- C3: the starting offset of the chart renderer is the least index whose
entry satisfies the `any_case`-selected predicate (`confirmed + deaths > 0`
versus `confirmed > 0 ∧ deaths > 0`); all three series (labels, confirmed,
deaths) are truncated before that index; and on
`confirmed = [0,0,3,5]`, `deaths = [0,0,0,2]` the offset is `3` with
`any_case = false` and `2` with `any_case = true`. -/
theorem chart_offset_least_index (any : Bool) (confirmed deaths : List Int)
    (i : Nat) (h : offsetIdx any confirmed deaths = some i) :
    (∀ c d, confirmed[i]? = some c → deaths[i]? = some d →
        (if any then 0 < c + d else 0 < c ∧ 0 < d)) ∧
    (∀ j, j < i → ∀ c d, confirmed[j]? = some c → deaths[j]? = some d →
        ¬ (if any then 0 < c + d else 0 < c ∧ 0 < d)) ∧
    (∀ (cfg : Config) (ts : List (Date × Int × Int)), cfg.any_case = any →
        confirmedOf ts = confirmed → deathsOf ts = deaths →
        write_graph_data cfg ts = some ((labelsOf ts).drop i, confirmed.drop i,
          pySliceFrom (if cfg.shift = 0 then 0 else cfg.shift) (deaths.drop i))) ∧
    offsetIdx false [0, 0, 3, 5] [0, 0, 0, 2] = some 3 ∧
    offsetIdx true [0, 0, 3, 5] [0, 0, 0, 2] = some 2 := by
  refine ⟨?_, ?_, ?_, by decide, by decide⟩
  · intro c d hc hd
    cases any with
    | true =>
      simp only [offsetIdx, if_pos] at h
      have := (findIdx?_zip_spec _ confirmed deaths i h).1 c d hc hd
      simpa using this
    | false =>
      simp only [offsetIdx, Bool.false_eq_true, if_neg] at h
      have := (findIdx?_zip_spec _ confirmed deaths i h).1 c d hc hd
      simpa using this
  · intro j hj c d hc hd
    cases any with
    | true =>
      simp only [offsetIdx, if_pos] at h
      have := (findIdx?_zip_spec _ confirmed deaths i h).2 j hj c d hc hd
      simpa using this
    | false =>
      simp only [offsetIdx, Bool.false_eq_true, if_neg] at h
      have := (findIdx?_zip_spec _ confirmed deaths i h).2 j hj c d hc hd
      simpa using this
  · intro cfg ts hany hc hd
    simp only [write_graph_data, hany, hc, hd, h]

/-- C3 witness: the offset search instantiated at the spec's example lists
returns index `3` without `any_case` and index `2` with it. -/
theorem chart_offset_witness :
    offsetIdx false [0, 0, 3, 5] [0, 0, 0, 2] = some 3 ∧
    offsetIdx true [0, 0, 3, 5] [0, 0, 0, 2] = some 2 :=
  (chart_offset_least_index false [0, 0, 3, 5] [0, 0, 0, 2] 3
    (by decide)).2.2.2

/-- C8: when no entry of the zipped series satisfies the starting-offset
predicate (in particular when the series is empty), `write_graph` hits the
unhandled `StopIteration` (`none`) and does not render a chart as if the
offset were `0`. -/
theorem chart_no_data (cfg : Config) (ts : List (Date × Int × Int))
    (h : ∀ cd ∈ (confirmedOf ts).zip (deathsOf ts),
        ¬ (if cfg.any_case then 0 < cd.1 + cd.2 else 0 < cd.1 ∧ 0 < cd.2)) :
    write_graph_data cfg ts = none := by
  have hf : offsetIdx cfg.any_case (confirmedOf ts) (deathsOf ts) = none := by
    cases hc : cfg.any_case with
    | true =>
      rw [hc] at h
      simp only [offsetIdx, if_pos]
      rw [List.findIdx?_eq_none_iff]
      intro x hx
      have := h x hx
      simpa using this
    | false =>
      rw [hc] at h
      simp only [offsetIdx, Bool.false_eq_true, if_false]
      rw [List.findIdx?_eq_none_iff]
      intro x hx
      have := h x hx
      simpa [not_and_or] using this
  simp only [write_graph_data, hf]

/-- C8 witness: a one-day series with zero confirmed and zero deaths makes
the renderer fail with `none` under the default configuration. -/
theorem chart_no_data_witness :
    write_graph_data ⟨14, false, "UK", false⟩ [(⟨2020, 1, 1⟩, 0, 0)] = none :=
  chart_no_data ⟨14, false, "UK", false⟩ [(⟨2020, 1, 1⟩, 0, 0)] (by decide)

/-- C9: the chart filename is a deterministic function of country, chart
kind, shift and log flag (two configurations agreeing on those fields give
identical filenames, whatever their other fields), and it equals the
spec's format `<country>-<kind>-(shifted-<N>-days|unshifted)[ (log)].png`
with the shifted form exactly for non-zero shift and the log suffix
exactly when the log flag is set. -/
theorem filename_deterministic (cfg cfg2 : Config) (graph_type : String)
    (hc : cfg.country = cfg2.country) (hs : cfg.shift = cfg2.shift)
    (hl : cfg.log = cfg2.log) :
    generate_filename cfg graph_type = generate_filename cfg2 graph_type ∧
    generate_filename cfg graph_type =
      filenameSpecFormat cfg.country graph_type cfg.shift cfg.log := by
  unfold generate_filename filenameSpecFormat
  rw [hc, hs, hl]
  exact ⟨rfl, rfl⟩

/-- C9 witness: two configurations differing only in `any_case` produce the
same `cases` chart filename, and it matches the spec's format. -/
theorem filename_deterministic_witness :
    generate_filename ⟨14, false, "UK", false⟩ "cases" =
      generate_filename ⟨14, false, "UK", true⟩ "cases" ∧
    generate_filename ⟨14, false, "UK", false⟩ "cases" =
      filenameSpecFormat "UK" "cases" 14 false :=
  filename_deterministic ⟨14, false, "UK", false⟩ ⟨14, false, "UK", true⟩
    "cases" rfl rfl rfl

/-- C10: when a row carries both column schemes, `row_filter` decides using
only the `Country_Region`/`Province_State` values; the
`Country/Region`/`Province/State` values do not appear in the result. -/
theorem schema_priority (active : String) (prof : CountryProfile) (row : Row)
    (cr ps cr2 ps2 : String)
    (hprof : List.lookup active countries = some prof)
    (hcr : List.lookup "Country_Region" row = some cr)
    (hps : List.lookup "Province_State" row = some ps)
    (hcr2 : List.lookup "Country/Region" row = some cr2)
    (hps2 : List.lookup "Province/State" row = some ps2) :
    row_filter active row =
      Except.ok (prof.country.contains cr && prof.state.contains ps) := by
  unfold row_filter
  rw [hprof]
  simp only [hasKey, getItem, hcr, hps, Option.isSome_some, if_pos,
    except_ok_bind]
  cases hc : prof.country.contains cr with
  | true => rfl
  | false => rfl

/-- C10 witness: a row carrying both schemes with a matching UK
`Country_Region` pair and a non-matching `Country/Region` pair is accepted:
only the underscore scheme is consulted. -/
theorem schema_priority_witness :
    row_filter "UK"
      [("Country_Region", "UK"), ("Province_State", ""),
       ("Country/Region", "Italy"), ("Province/State", "x")] =
      Except.ok true := by
  have h := schema_priority "UK"
    ⟨["UK", "United Kingdom"], ["", "UK", "United Kingdom"]⟩
    [("Country_Region", "UK"), ("Province_State", ""),
     ("Country/Region", "Italy"), ("Province/State", "x")]
    "UK" "" "Italy" "x" (by decide) (by decide) (by decide) (by decide)
    (by decide)
  simpa using h

/-- C2 counterexample: with shift `3` and a post-offset series of length
`1`, the rendered confirmed series has length `1` and the rendered deaths
series has length `0`, so the two series differ in length by `1`, not by
the shift `3` — the claim's "differ in length by `shift`" fails once the
shift exceeds the post-offset length. -/
theorem write_graph_shift_counterexample :
    (write_graph_data ⟨3, false, "UK", false⟩ [(⟨2020, 1, 1⟩, 1, 1)]).map
        (fun r => (r.2.1.length, r.2.2.length)) = some (1, 0) ∧
    (1 : Nat) - 0 ≠ 3 := by
  decide

/-- C2 amended: after the starting-offset truncation, the shift drops the
first `shift` entries from the deaths series only, leaving the confirmed
series and the x-axis labels at full post-offset length, so for a
non-negative shift the two rendered series differ in length by
`min shift postOffsetLength` (which is `shift` whenever
`shift ≤ postOffsetLength`); with shift zero nothing is dropped; and
shift `2` on deaths `[1,2,3,4,5]` renders `[3,4,5]`. -/
theorem write_graph_shift_amended (cfg : Config) (ts : List (Date × Int × Int))
    (s i : Nat) (hs : cfg.shift = Int.ofNat s)
    (h : offsetIdx cfg.any_case (confirmedOf ts) (deathsOf ts) = some i) :
    write_graph_data cfg ts = some ((labelsOf ts).drop i,
      (confirmedOf ts).drop i, ((deathsOf ts).drop i).drop s) ∧
    ((labelsOf ts).drop i).length = ts.length - i ∧
    ((confirmedOf ts).drop i).length = ts.length - i ∧
    ((confirmedOf ts).drop i).length - (((deathsOf ts).drop i).drop s).length =
      min s ((confirmedOf ts).drop i).length ∧
    (s = 0 → ((deathsOf ts).drop i).drop s = (deathsOf ts).drop i) ∧
    pySliceFrom 2 [1, 2, 3, 4, 5] = [3, 4, 5] := by
  have hts : (if cfg.shift = 0 then (0 : Int) else cfg.shift) = cfg.shift := by
    by_cases hz : cfg.shift = 0 <;> simp [hz]
  have hps : pySliceFrom (Int.ofNat s) ((deathsOf ts).drop i) =
      ((deathsOf ts).drop i).drop s := by
    simp [pySliceFrom]
  refine ⟨?_, ?_, ?_, ?_, ?_, by decide⟩
  · simp only [write_graph_data, h]
    rw [hts, hs, hps]
  · simp [labelsOf]
  · simp [confirmedOf]
  · simp only [List.length_drop, confirmedOf, deathsOf, List.length_map]
    omega
  · intro hz
    subst hz
    simp

/-- C2 witness: shift `2` on a five-day series with deaths `[1,2,3,4,5]`
and offset `0` renders deaths `[3,4,5]` against full-length confirmed and
label series. -/
theorem write_graph_shift_witness :
    write_graph_data ⟨2, false, "UK", false⟩
        [(⟨2020, 1, 1⟩, 1, 1), (⟨2020, 1, 2⟩, 1, 2), (⟨2020, 1, 3⟩, 1, 3),
         (⟨2020, 1, 4⟩, 1, 4), (⟨2020, 1, 5⟩, 1, 5)] =
      some ((labelsOf [(⟨2020, 1, 1⟩, 1, 1), (⟨2020, 1, 2⟩, 1, 2),
          (⟨2020, 1, 3⟩, 1, 3), (⟨2020, 1, 4⟩, 1, 4),
          (⟨2020, 1, 5⟩, 1, 5)]).drop 0,
        (confirmedOf [(⟨2020, 1, 1⟩, 1, 1), (⟨2020, 1, 2⟩, 1, 2),
          (⟨2020, 1, 3⟩, 1, 3), (⟨2020, 1, 4⟩, 1, 4),
          (⟨2020, 1, 5⟩, 1, 5)]).drop 0,
        ((deathsOf [(⟨2020, 1, 1⟩, 1, 1), (⟨2020, 1, 2⟩, 1, 2),
          (⟨2020, 1, 3⟩, 1, 3), (⟨2020, 1, 4⟩, 1, 4),
          (⟨2020, 1, 5⟩, 1, 5)]).drop 0).drop 2) :=
  (write_graph_shift_amended ⟨2, false, "UK", false⟩
    [(⟨2020, 1, 1⟩, 1, 1), (⟨2020, 1, 2⟩, 1, 2), (⟨2020, 1, 3⟩, 1, 3),
     (⟨2020, 1, 4⟩, 1, 4), (⟨2020, 1, 5⟩, 1, 5)] 2 0 rfl (by decide)).1

/-- C4 counterexample: the row `{"Country_Region": "UK"}` contains neither
complete key set, yet because its country value `"UK"` is accepted the
short-circuit `and` goes on to look up `Province_State` and `row_filter`
raises a `KeyError` — not the schema `Exception` carrying the row's
available keys that the claim promises for such rows. -/
theorem row_filter_schema_counterexample :
    row_filter "UK" [("Country_Region", "UK")] =
      Except.error (RowErr.keyError "Province_State") ∧
    row_filter "UK" [("Country_Region", "UK")] ≠
      Except.error (RowErr.unrecognizedSchema ["Country_Region"]) := by
  decide

/-- C4 amended: schema choice is by presence of the country key alone
(`Country_Region` first): a row with both keys of the underscore scheme is
classified by membership of its two values in the active country's
accepted lists; a row without `Country_Region` but with both slash-scheme
keys likewise; a row with neither country key raises the schema error
carrying the row's keys; mirroring Python's short-circuit `and`, a row
whose country value is not in the accepted list answers `false` without
consulting the state key, while a row with an accepted country value but
without the matching state key raises a `KeyError` instead of the schema
error. -/
theorem row_filter_schema_amended (active : String) (prof : CountryProfile)
    (row : Row) (hprof : List.lookup active countries = some prof) :
    (∀ cr ps, List.lookup "Country_Region" row = some cr →
        List.lookup "Province_State" row = some ps →
        row_filter active row =
          Except.ok (prof.country.contains cr && prof.state.contains ps)) ∧
    (List.lookup "Country_Region" row = none →
      ∀ cr ps, List.lookup "Country/Region" row = some cr →
        List.lookup "Province/State" row = some ps →
        row_filter active row =
          Except.ok (prof.country.contains cr && prof.state.contains ps)) ∧
    (List.lookup "Country_Region" row = none →
      List.lookup "Country/Region" row = none →
      row_filter active row =
        Except.error (RowErr.unrecognizedSchema (row.map Prod.fst))) ∧
    (∀ cr, List.lookup "Country_Region" row = some cr →
      prof.country.contains cr = true →
      List.lookup "Province_State" row = none →
      row_filter active row = Except.error (RowErr.keyError "Province_State")) ∧
    (∀ cr, List.lookup "Country_Region" row = some cr →
      prof.country.contains cr = false →
      row_filter active row = Except.ok false) := by
  refine ⟨?_, ?_, ?_, ?_, ?_⟩
  · intro cr ps hcr hps
    unfold row_filter
    rw [hprof]
    simp only [hasKey, getItem, hcr, hps, Option.isSome_some, if_pos,
      except_ok_bind]
    cases hc : prof.country.contains cr with
    | true => rfl
    | false => rfl
  · intro hn cr ps hcr hps
    unfold row_filter
    rw [hprof]
    simp only [hasKey, getItem, hn, hcr, hps, Option.isSome_some,
      Option.isSome_none, Bool.false_eq_true, if_false, if_pos,
      except_ok_bind]
    cases hc : prof.country.contains cr with
    | true => rfl
    | false => rfl
  · intro hn hn2
    unfold row_filter
    rw [hprof]
    simp only [hasKey, hn, hn2, Option.isSome_none, Bool.false_eq_true,
      if_false]
  · intro cr hcr hc hps
    unfold row_filter
    rw [hprof]
    simp only [hasKey, getItem, hcr, hps, Option.isSome_some, if_pos,
      except_ok_bind, hc]
    rfl
  · intro cr hcr hc
    unfold row_filter
    rw [hprof]
    simp only [hasKey, getItem, hcr, Option.isSome_some, if_pos,
      except_ok_bind, hc]
    rfl

/-- C4 witness: a well-formed underscore-scheme row for the United Kingdom
is classified by membership of its country and state values. -/
theorem row_filter_schema_witness :
    row_filter "UK" [("Country_Region", "United Kingdom"), ("Province_State", "")] =
      Except.ok true := by
  have h := (row_filter_schema_amended "UK"
    ⟨["UK", "United Kingdom"], ["", "UK", "United Kingdom"]⟩
    [("Country_Region", "United Kingdom"), ("Province_State", "")]
    (by decide)).1 "United Kingdom" "" (by decide) (by decide)
  simpa using h

/-- C6: the counts of `process_file` come from the first row accepted by
`row_filter` (rows after it are never consulted), its `Confirmed` and
`Deaths` fields parse as integers with the empty string counted as zero,
and a file with no matching row yields the zero-filled record
`(date, 0, 0)` as a success, not an error. -/
theorem process_file_counts (active : String) (filename : String)
    (rows1 rows2 : List Row) (r : Row) (dt : Date) (cv dv : Int)
    (hdt : strptime_mdY (pyRstrip rstripSet filename.data) = some dt)
    (h1 : ∀ q ∈ rows1, row_filter active q = Except.ok false)
    (hr : row_filter active r = Except.ok true)
    (hc : intFieldOrZero (List.lookup "Confirmed" r) = some cv)
    (hd : intFieldOrZero (List.lookup "Deaths" r) = some dv) :
    process_file active filename (rows1 ++ r :: rows2) = some (dt, cv, dv) ∧
    (∀ rows : List Row, (∀ q ∈ rows, row_filter active q = Except.ok false) →
        process_file active filename rows = some (dt, 0, 0)) ∧
    intFieldOrZero (some "") = some 0 := by
  refine ⟨?_, ?_, rfl⟩
  · unfold process_file
    rw [hdt, findFirstMatch_first active r rows2 hr rows1 h1]
    simp [hc, hd]
  · intro rows hall
    unfold process_file
    rw [hdt, findFirstMatch_all_false active rows hall]

/-- C6 witness: with one earlier non-matching row and one later bogus row,
the counts come from the single matching row (confirmed `5`, deaths `1`)
of the file dated `01-02-2020`. -/
theorem process_file_counts_witness :
    process_file "UK" "01-02-2020.csv"
      [[("Country_Region", "France"), ("Province_State", "")],
       [("Country_Region", "UK"), ("Province_State", ""),
        ("Confirmed", "5"), ("Deaths", "1")],
       [("bogus", "x")]] = some (⟨2020, 1, 2⟩, 5, 1) :=
  (process_file_counts "UK" "01-02-2020.csv"
    [[("Country_Region", "France"), ("Province_State", "")]]
    [[("bogus", "x")]]
    [("Country_Region", "UK"), ("Province_State", ""),
     ("Confirmed", "5"), ("Deaths", "1")]
    ⟨2020, 1, 2⟩ 5 1 (by decide) (by decide) (by decide) (by decide)
    (by decide)).1

/-- C7: whatever the enumeration order of the input files, the time series
produced by `get_data` is sorted non-decreasing by date. -/
theorem get_data_sorted (active : String) (files : List (String × List Row))
    (ts : List (Date × Int × Int)) (h : get_data active files = some ts) :
    List.Pairwise (fun a b => dateLe a.1 b.1 = true) ts := by
  unfold get_data at h
  rcases Option.map_eq_some'.mp h with ⟨l, hl, hts⟩
  have htrans : ∀ a b c : Date × Int × Int, dateLe a.1 b.1 = true →
      dateLe b.1 c.1 = true → dateLe a.1 c.1 = true :=
    fun a b c hab hbc => dateLe_trans a.1 b.1 c.1 hab hbc
  have htotal : ∀ a b : Date × Int × Int,
      (dateLe a.1 b.1 || dateLe b.1 a.1) = true :=
    fun a b => dateLe_total a.1 b.1
  rw [← hts]
  exact List.sorted_mergeSort htrans htotal l

/-- C7 witness: the two files enumerated in reverse date order come out of
`get_data` sorted ascending by date. -/
theorem get_data_sorted_witness :
    List.Pairwise (fun a b => dateLe a.1 b.1 = true)
      [((⟨2020, 1, 1⟩ : Date), (0 : Int), (0 : Int)), (⟨2020, 1, 2⟩, 0, 0)] :=
  get_data_sorted "UK" [("01-02-2020.csv", []), ("01-01-2020.csv", [])]
    [(⟨2020, 1, 1⟩, 0, 0), (⟨2020, 1, 2⟩, 0, 0)] (by
      have h : [("01-02-2020.csv", ([] : List Row)), ("01-01-2020.csv", [])].mapM
          (fun fr => process_file "UK" fr.1 fr.2) =
          some [(⟨2020, 1, 2⟩, 0, 0), (⟨2020, 1, 1⟩, 0, 0)] := by decide
      unfold get_data
      rw [h]
      simp [List.mergeSort, dateLe])

/-- C5: for every filename of the form `MM-DD-YYYY.csv` (digit characters
`m1 m2 - d1 d2 - y1 y2 y3 y4 . c s v`, with month and day in range and a
year of at least `MINYEAR = 1`), whenever `process_file` produces a record
its date is exactly the date parsed from the filename (month `MM`, day
`DD`, year `YYYY`), for every active country and every file content; and
on empty content the record is produced with that date. -/
theorem process_file_date (m1 m2 d1 d2 y1 y2 y3 y4 : Char)
    (h1 : m1 ∈ digitChars) (h2 : m2 ∈ digitChars) (h3 : d1 ∈ digitChars)
    (h4 : d2 ∈ digitChars) (h5 : y1 ∈ digitChars) (h6 : y2 ∈ digitChars)
    (h7 : y3 ∈ digitChars) (h8 : y4 ∈ digitChars)
    (hy : 1 ≤ fourDigits y1 y2 y3 y4)
    (hm1 : 1 ≤ twoDigits m1 m2) (hm2 : twoDigits m1 m2 ≤ 12)
    (hd1 : 1 ≤ twoDigits d1 d2)
    (hd2 : twoDigits d1 d2 ≤ daysInMonth (fourDigits y1 y2 y3 y4) (twoDigits m1 m2)) :
    (∀ (active : String) (rows : List Row) (rec : Date × Int × Int),
        process_file active
          ⟨[m1, m2, '-', d1, d2, '-', y1, y2, y3, y4, '.', 'c', 's', 'v']⟩
          rows = some rec →
        rec.1 = ⟨fourDigits y1 y2 y3 y4, twoDigits m1 m2, twoDigits d1 d2⟩) ∧
    (∀ active : String,
        process_file active
          ⟨[m1, m2, '-', d1, d2, '-', y1, y2, y3, y4, '.', 'c', 's', 'v']⟩
          [] =
        some (⟨fourDigits y1 y2 y3 y4, twoDigits m1 m2, twoDigits d1 d2⟩, 0, 0)) := by
  have hst : strptime_mdY (pyRstrip rstripSet
      (String.mk [m1, m2, '-', d1, d2, '-', y1, y2, y3, y4, '.', 'c', 's', 'v']).data) =
      some ⟨fourDigits y1 y2 y3 y4, twoDigits m1 m2, twoDigits d1 d2⟩ := by
    rw [show (String.mk
      [m1, m2, '-', d1, d2, '-', y1, y2, y3, y4, '.', 'c', 's', 'v']).data =
      [m1, m2, '-', d1, d2, '-', y1, y2, y3, y4, '.', 'c', 's', 'v'] from rfl]
    rw [pyRstrip_mdY m1 m2 d1 d2 y1 y2 y3 y4 h8]
    exact strptime_mdY_digits m1 m2 d1 d2 y1 y2 y3 y4 h1 h2 h3 h4 h5 h6 h7 h8
      hy hm1 hm2 hd1 hd2
  constructor
  · intro active rows rec hrec
    unfold process_file at hrec
    rw [hst] at hrec
    split at hrec
    · exact absurd hrec (by simp)
    · rename_i date heq
      have hdate : date =
          ⟨fourDigits y1 y2 y3 y4, twoDigits m1 m2, twoDigits d1 d2⟩ :=
        (Option.some.inj heq).symm
      subst hdate
      split at hrec
      · exact absurd hrec (by simp)
      · rw [← Option.some.inj hrec]
      · split at hrec
        · rw [← Option.some.inj hrec]
        · exact absurd hrec (by simp)
  · intro active
    unfold process_file
    rw [hst]
    rfl

/-- C5 witness: the filename `01-22-2020.csv` with empty content reduces to
the zero-filled record dated `2020-01-22`. -/
theorem process_file_date_witness :
    process_file "UK" "01-22-2020.csv" [] = some (⟨2020, 1, 22⟩, 0, 0) := by
  have h := (process_file_date '0' '1' '2' '2' '2' '0' '2' '0'
    (by decide) (by decide) (by decide) (by decide) (by decide) (by decide)
    (by decide) (by decide) (by decide) (by decide) (by decide) (by decide)
    (by decide)).2 "UK"
  exact h

end Graphing
